import Mathlib

/-!
Verification of the transcription-session logic of `src/app/page.tsx`
(the `SpeechToTextApp` React component of the speech-to-text repository).

The component's `useState` hooks become fields of `AppState`; each event
handler and callback of the source becomes a pure function
`AppState → … → AppState`.  Browser-supplied outcomes (microphone
permission, `fetch` results, clipboard success) are passed in as explicit
parameters, and the open OS resources that the source holds in refs
(`recognitionRef` started or not, `streamRef` holding a live stream,
`mediaRecorderRef.state`) are tracked in dedicated fields, together with a
ghost counter `trackStopCount` counting how many times the microphone
stream's tracks were stopped.
-/

namespace STT

/-- The two transcription backends: `'web-api'` (Live / Web Speech) and
`'aiml'` (Batch / OpenAI), the values of the `transcriptionMethod` state
(page.tsx line 76). -/
inductive Backend where
  | webApi
  | aiml
deriving DecidableEq, Repr

/-- State of `mediaRecorderRef`: no recorder created yet, or a recorder
whose `state` is `'inactive'` or `'recording'` (page.tsx lines 83, 406). -/
inductive RecState where
  | noRecorder
  | inactive
  | recording
deriving DecidableEq, Repr

/-- Session status in the spec's vocabulary, derived from the component's
boolean flags (the badge at page.tsx lines 532-537 renders exactly this
priority: listening/recording first, then transcribing). -/
inductive Status where
  | Idle
  | Capturing
  | Processing
deriving DecidableEq, Repr

/-- One element of a live recognition result batch: `result.isFinal` and
`result[0].transcript` (page.tsx lines 229-234). -/
structure SRResult where
  isFinal : Bool
  transcript : String
deriving DecidableEq, Repr

/-- Outcome of the `fetch('/api/transcribe')` call inside
`transcribeWithWhisper` (page.tsx lines 429-439): `ok text` is a 2xx
response whose JSON has the given `text`; `httpError e` is a non-ok
response whose JSON error field is `e` (the empty string standing for a
missing/falsy field); `thrown m` is a rejected fetch / JSON parse whose
error message is `m`. -/
inductive FetchOutcome where
  | ok (text : String)
  | httpError (e : String)
  | thrown (m : String)
deriving DecidableEq, Repr

/-- The component state: one field per `useState` hook of
`SpeechToTextApp` (page.tsx lines 68-80), plus the resource bookkeeping
described in the file header. -/
structure AppState where
  isListening : Bool
  transcript : String
  interimTranscript : String
  selectedLanguage : String
  isSupported : Bool
  error : String
  copySuccess : Bool
  isTranscribing : Bool
  transcriptionMethod : Backend
  isRecording : Bool
  recordingTime : Nat
  autoCopyEnabled : Bool
  justStoppedRecording : Bool
  /-- whether the recognizer held in `recognitionRef` has been started and
  not yet ended (a live capture handle is open) -/
  recognizerActive : Bool
  /-- whether `streamRef` holds a microphone stream whose tracks have not
  been stopped (a batch capture handle is open) -/
  streamOpen : Bool
  recorderState : RecState
  /-- sizes of the chunks accumulated in `audioChunksRef` -/
  audioChunks : List Nat
  /-- ghost counter: how many times `stream.getTracks().forEach(track =>
  track.stop())` has run -/
  trackStopCount : Nat
  /-- ghost counter: how many successful clipboard writes happened -/
  copyCount : Nat
  /-- ghost: last text written to the clipboard -/
  clipboard : String
  timerRunning : Bool
deriving DecidableEq, Repr

/-- Initial component state: the `useState` initializers of page.tsx
lines 68-80, with no browser resources open. -/
def initState : AppState where
  isListening := false
  transcript := ""
  interimTranscript := ""
  selectedLanguage := "en-US"
  isSupported := true
  error := ""
  copySuccess := false
  isTranscribing := false
  transcriptionMethod := .webApi
  isRecording := false
  recordingTime := 0
  autoCopyEnabled := false
  justStoppedRecording := false
  recognizerActive := false
  streamOpen := false
  recorderState := .noRecorder
  audioChunks := []
  trackStopCount := 0
  copyCount := 0
  clipboard := ""
  timerRunning := false

/-- Spec-level session status derived from the component flags, with the
priority of the status badge (page.tsx lines 532-537). -/
def statusOf (s : AppState) : Status :=
  if s.isListening || s.isRecording then .Capturing
  else if s.isTranscribing then .Processing
  else .Idle

/-- Number of open capture handles: a started recognizer plus a live
microphone stream. -/
def openHandles (s : AppState) : Nat :=
  (if s.recognizerActive then 1 else 0) + (if s.streamOpen then 1 else 0)

/-- The text shown in the transcript textarea:
`value={transcript + interimTranscript}` (page.tsx line 591). -/
def displayedText (s : AppState) : String :=
  s.transcript ++ s.interimTranscript

/-- JavaScript `String.prototype.trim`, embedded executably over the
character list (the source calls `transcript.trim()` at page.tsx
line 131). -/
def jsTrim (s : String) : String :=
  ⟨((s.data.dropWhile Char.isWhitespace).reverse.dropWhile
      Char.isWhitespace).reverse⟩

/-- The accumulating loop of `recognition.onresult` (page.tsx
lines 228-235): walks the batch left to right, appending each final
segment to the first accumulator and each non-final segment to the
second. -/
def collectLoop : List SRResult → String → String → String × String
  | [], finalAcc, interimAcc => (finalAcc, interimAcc)
  | r :: rs, finalAcc, interimAcc =>
    if r.isFinal then collectLoop rs (finalAcc ++ r.transcript) interimAcc
    else collectLoop rs finalAcc (interimAcc ++ r.transcript)

/-- Concatenation (without separators) of the final segments of a batch. -/
def finalsConcat : List SRResult → String
  | [] => ""
  | r :: rs => (if r.isFinal then r.transcript else "") ++ finalsConcat rs

/-- Concatenation (without separators) of the non-final segments of a
batch. -/
def interimConcat : List SRResult → String
  | [] => ""
  | r :: rs => (if r.isFinal then "" else r.transcript) ++ interimConcat rs

/-- `recognition.onresult` (page.tsx lines 224-241): collect the batch's
final and interim text; if the final text is non-empty (JS truthiness of
`finalTranscript`) append it plus a single `" "` to `transcript`; the
interim text always replaces `interimTranscript`. -/
def onresult (s : AppState) (batch : List SRResult) : AppState :=
  let c := collectLoop batch "" ""
  let finalTranscript := c.1
  let interimText := c.2
  let s1 :=
    if finalTranscript ≠ "" then
      { s with transcript := s.transcript ++ finalTranscript ++ " " }
    else s
  { s1 with interimTranscript := interimText }

/-- The live batch update as the amended claim C1 states it: the batch's
final segments are concatenated and — when that concatenation is
non-empty — appended to `transcript` followed by one single trailing
space for the whole batch; the concatenation of the batch's interim
segments fully replaces `interimText`. -/
def liveResultSpec (s : AppState) (batch : List SRResult) : AppState :=
  { s with
    transcript :=
      if finalsConcat batch = "" then s.transcript
      else s.transcript ++ finalsConcat batch ++ " "
    interimTranscript := interimConcat batch }

/-- `recognition.onerror` (page.tsx lines 243-261): always stops
listening, then classifies the error code.  `network` and
`service-not-allowed` additionally mark Web Speech unsupported and force
`transcriptionMethod` to `'aiml'`.  An errored recognizer is no longer
capturing, so the live handle closes. -/
def onerror (s : AppState) (code : String) : AppState :=
  let s1 := { s with isListening := false, recognizerActive := false }
  if code = "not-allowed" then
    { s1 with error := "Microphone access denied. Please allow microphone access and try again." }
  else if code = "no-speech" then
    { s1 with error := "No speech detected. Please try speaking again." }
  else if code = "network" then
    { s1 with isSupported := false, transcriptionMethod := .aiml
              error := "Web Speech is unavailable in this browser or region. Switched to OpenAI transcription." }
  else if code = "service-not-allowed" then
    { s1 with isSupported := false, transcriptionMethod := .aiml
              error := "Web Speech is not allowed. Switched to OpenAI transcription." }
  else
    { s1 with error := "Speech recognition error: " ++ code ++ ". Try using OpenAI transcription instead." }

/-- `recognition.onend` (page.tsx lines 217-222): stop listening, clear
the interim text, stop the timer, set the capture-completion flag.  The
ended recognizer no longer holds a capture handle. -/
def onend (s : AppState) : AppState :=
  { s with isListening := false, interimTranscript := "",
           timerRunning := false, justStoppedRecording := true,
           recognizerActive := false }

/-- `startListening` (page.tsx lines 293-307) composed with the
`recognition.onstart` callback (lines 212-215) that a successful
`recognition.start()` triggers.  Guard: bail out when `recognitionRef` is
null / Web Speech unsupported.  A denied microphone permission makes the
`await getUserMedia` reject, landing in the catch.  If the recognizer is
already started, `recognition.start()` throws (the browser's
InvalidStateError) after the timer has already been started, landing in
the same catch. -/
def startListening (s : AppState) (permission : Bool) : AppState :=
  if ¬ s.isSupported then s
  else if ¬ permission then
    { s with error := "Microphone access denied. Please allow microphone access and try again." }
  else if s.recognizerActive then
    { s with recordingTime := 0, timerRunning := true
             error := "Microphone access denied. Please allow microphone access and try again." }
  else
    { s with error := "", recordingTime := 0, timerRunning := true,
             recognizerActive := true, isListening := true }

/-- `stopListening` (page.tsx lines 309-314): `recognition.stop()` — which
triggers the `onend` callback when the recognizer was running — and
`stopTimer()`. -/
def stopListening (s : AppState) : AppState :=
  let s1 := if s.recognizerActive then onend s else s
  { s1 with timerRunning := false }

/-- `clearTranscript` (page.tsx lines 316-319). -/
def clearTranscript (s : AppState) : AppState :=
  { s with transcript := "", interimTranscript := "" }

/-- The Ctrl+D branch of `handleKeyDown` (page.tsx lines 98-101): runs
`clearTranscript` only when `transcript` is truthy (non-empty). -/
def handleCtrlD (s : AppState) : AppState :=
  if s.transcript ≠ "" then clearTranscript s else s

/-- `copyToClipboard` (page.tsx lines 321-330): on success writes
`transcript` to the clipboard and sets `copySuccess`; a clipboard failure
is only logged to the console — no state change. -/
def copyToClipboard (s : AppState) (clipboardOk : Bool) : AppState :=
  if clipboardOk then
    { s with clipboard := s.transcript, copyCount := s.copyCount + 1,
             copySuccess := true }
  else s

/-- The debounce delay of the auto-copy effect: `setTimeout(..., 500)`
(page.tsx line 135). -/
def autoCopyDelayMs : Nat := 500

/-- The auto-copy `useEffect` (page.tsx lines 130-141): when the
capture-completion flag is set and auto-copy is enabled and the trimmed
transcript is truthy, copy after the debounce delay and clear the flag;
when only the flag is set, just clear it. -/
def autoCopyEffect (s : AppState) (clipboardOk : Bool) : AppState :=
  if s.justStoppedRecording = true ∧ s.autoCopyEnabled = true ∧
      jsTrim s.transcript ≠ "" then
    { copyToClipboard s clipboardOk with justStoppedRecording := false }
  else if s.justStoppedRecording = true then
    { s with justStoppedRecording := false }
  else s

/-- `startWhisperRecording` (page.tsx lines 334-403): clear the error,
acquire the microphone stream (`mic = none` means `getUserMedia`
rejected with the given handled in the catch), create the recorder,
reset the chunk buffer, start recording and the timer.  `mic = some r`
failure sets the error from the exception message `r`. -/
def startWhisperRecording (s : AppState) (mic : Except String Unit) :
    AppState :=
  match mic with
  | .error reason =>
    { s with error := "Error accessing microphone: " ++ reason }
  | .ok _ =>
    { s with error := "", streamOpen := true, recorderState := .recording,
             audioChunks := [], isRecording := true,
             recordingTime := 0, timerRunning := true }

/-- `mediaRecorder.ondataavailable` (page.tsx lines 375-379): push the
chunk when its size is positive. -/
def ondataavailable (s : AppState) (size : Nat) : AppState :=
  if size > 0 then { s with audioChunks := s.audioChunks ++ [size] }
  else s

/-- The fallible body of `transcribeWithWhisper` between `fetch` and
`setTranscript` (page.tsx lines 429-439), as the `Except` it produces: a
non-ok response throws `errorData.error || 'Error in transcription'`; a
rejected fetch / JSON parse throws its own message; an ok response yields
`result.text`. -/
def fetchResult : FetchOutcome → Except String String
  | .ok t => .ok t
  | .httpError e => .error (if e = "" then "Error in transcription" else e)
  | .thrown m => .error m

/-- The entry of `transcribeWithWhisper` (page.tsx lines 416-417):
`setIsTranscribing(true)` and `setError("")` — the state while the
transcription call is in flight. -/
def transcribeBegin (s : AppState) : AppState :=
  { s with isTranscribing := true, error := "" }

/-- The completion of `transcribeWithWhisper` (page.tsx lines 441-449):
on success append `(prev ? '\n\n' : '') + result.text` to `transcript`;
on any caught error set the error message; in the `finally` block always
reset `isTranscribing` and set the capture-completion flag. -/
def transcribeFinish (s : AppState) (o : FetchOutcome) : AppState :=
  let s1 :=
    match fetchResult o with
    | .ok t =>
      { s with transcript :=
          s.transcript ++ (if s.transcript ≠ "" then "\n\n" else "") ++ t }
    | .error m =>
      { s with error := "Transcription error: " ++ m }
  { s1 with isTranscribing := false, justStoppedRecording := true }

/-- `transcribeWithWhisper` (page.tsx lines 414-450) as a whole: begin,
then finish with the fetch outcome.  The function is total in `o` — every
failure path of the source is caught by the `try/catch/finally`. -/
def transcribeWithWhisper (s : AppState) (o : FetchOutcome) : AppState :=
  transcribeFinish (transcribeBegin s) o

/-- `mediaRecorder.onstop` (page.tsx lines 381-392): build the blob from
the buffered chunks, `await transcribeWithWhisper(audioBlob)` (which
never rejects), then stop every track of the stream and null out
`streamRef`.  The recorder that fired `onstop` is now inactive. -/
def recorderOnStop (s : AppState) (o : FetchOutcome) : AppState :=
  let s1 := transcribeWithWhisper s o
  { s1 with streamOpen := false, trackStopCount := s1.trackStopCount + 1,
            recorderState := .inactive }

/-- `stopWhisperRecording` (page.tsx lines 405-412) together with the
`onstop` callback it triggers when the recorder is actually recording:
`mediaRecorder.stop()` only when `state === 'recording'`, then always
`setIsRecording(false)` and `stopTimer()`. -/
def stopWhisperRecording (s : AppState) (o : FetchOutcome) : AppState :=
  let s1 := { s with isRecording := false, timerRunning := false }
  if s.recorderState = .recording then recorderOnStop s1 o else s1

/-- The `transcriptionMethod` radio inputs (page.tsx lines 460-488): the
`aiml` radio always calls `setTranscriptionMethod('aiml')`; the `web-api`
radio does so for `'web-api'` but is `disabled={!isSupported}`.  Neither
is guarded by the session status. -/
def selectBackendRadio (s : AppState) (b : Backend) : AppState :=
  match b with
  | .aiml => { s with transcriptionMethod := .aiml }
  | .webApi =>
    if s.isSupported then { s with transcriptionMethod := .webApi } else s

/-- The transcript textarea's change handler (page.tsx line 592):
`onChange={(e) => setTranscript(e.target.value)}`.  The value the DOM
hands over is the edited content of the textarea, whose displayed content
is `displayedText` (line 591). -/
def textareaChange (s : AppState) (value : String) : AppState :=
  { s with transcript := value }

/-- The Space branch of `handleKeyDown` (page.tsx lines 104-119): ignored
while `isTranscribing`; otherwise toggles the active backend's capture.
The main button (lines 509-518) dispatches identically and is likewise
`disabled={isTranscribing}`. -/
def spaceHandler (s : AppState) (permission : Bool)
    (mic : Except String Unit) (o : FetchOutcome) : AppState :=
  if s.isTranscribing then s
  else
    match s.transcriptionMethod with
    | .webApi =>
      if s.isListening then stopListening s else startListening s permission
    | .aiml =>
      if s.isRecording then stopWhisperRecording s o
      else startWhisperRecording s mic

/-- The Ctrl+C branch of `handleKeyDown` (page.tsx lines 92-95) and the
copy button (`disabled={!transcript}`, lines 555-559): copy only when
`transcript` is non-empty. -/
def ctrlCopy (s : AppState) (clipboardOk : Bool) : AppState :=
  if s.transcript ≠ "" then copyToClipboard s clipboardOk else s

/-- Every event the mounted component reacts to, with the
browser-supplied outcome each needs. -/
inductive Event where
  | evOnstart
  | evOnend
  | evOnresult (batch : List SRResult)
  | evOnerror (code : String)
  | evStartLive (permission : Bool)
  | evStopLive
  | evStartBatch (mic : Except String Unit)
  | evStopBatch (o : FetchOutcome)
  | evData (size : Nat)
  | evSelect (b : Backend)
  | evEdit (value : String)
  | evClear
  | evCopy (clipboardOk : Bool)
  | evCtrlD
  | evSpace (permission : Bool) (mic : Except String Unit) (o : FetchOutcome)
  | evAutoCopy (clipboardOk : Bool)
  | evSetAutoCopy (b : Bool)
  | evSetLanguage (lang : String)
  | evTick

/-- One step of the session: dispatch an event to the handler embedded
above.  The clear button (page.tsx lines 575-579) and the copy
button/shortcut are guarded by a non-empty `transcript` (`disabled` /
the `&& transcript` condition); the timer tick is the `setInterval`
callback of `startTimer` (lines 273-278). -/
def step (s : AppState) : Event → AppState
  | .evOnstart => { s with isListening := true, error := "" }
  | .evOnend => onend s
  | .evOnresult batch => onresult s batch
  | .evOnerror code => onerror s code
  | .evStartLive permission => startListening s permission
  | .evStopLive => stopListening s
  | .evStartBatch mic => startWhisperRecording s mic
  | .evStopBatch o => stopWhisperRecording s o
  | .evData size => ondataavailable s size
  | .evSelect b => selectBackendRadio s b
  | .evEdit value => textareaChange s value
  | .evClear => handleCtrlD s
  | .evCopy clipboardOk => ctrlCopy s clipboardOk
  | .evCtrlD => handleCtrlD s
  | .evSpace permission mic o => spaceHandler s permission mic o
  | .evAutoCopy clipboardOk => autoCopyEffect s clipboardOk
  | .evSetAutoCopy b => { s with autoCopyEnabled := b }
  | .evSetLanguage lang => { s with selectedLanguage := lang }
  | .evTick =>
    if s.timerRunning then { s with recordingTime := s.recordingTime + 1 }
    else s

/-! ## Helper lemmas -/

theorem collectLoop_fst : ∀ (batch : List SRResult) (f i : String),
    (collectLoop batch f i).1 = f ++ finalsConcat batch := by
  intro batch
  induction batch with
  | nil =>
    intro f i
    simp [collectLoop, finalsConcat]
  | cons r rs ih =>
    intro f i
    cases hf : r.isFinal <;>
      simp [collectLoop, finalsConcat, hf, ih, String.append_assoc]

theorem collectLoop_snd : ∀ (batch : List SRResult) (f i : String),
    (collectLoop batch f i).2 = i ++ interimConcat batch := by
  intro batch
  induction batch with
  | nil =>
    intro f i
    simp [collectLoop, interimConcat]
  | cons r rs ih =>
    intro f i
    cases hf : r.isFinal <;>
      simp [collectLoop, interimConcat, hf, ih, String.append_assoc]

theorem jsTrim_of_empty : jsTrim "" = "" := rfl

theorem ne_empty_of_jsTrim_ne_empty {t : String} (h : jsTrim t ≠ "") :
    t ≠ "" := by
  intro he
  exact h (he ▸ jsTrim_of_empty)

theorem step_keeps_fallback (s : AppState) (e : Event)
    (h1 : s.isSupported = false) (h2 : s.transcriptionMethod = .aiml) :
    (step s e).isSupported = false ∧
      (step s e).transcriptionMethod = .aiml := by
  cases e with
  | evOnstart => exact ⟨h1, h2⟩
  | evOnend => exact ⟨h1, h2⟩
  | evOnresult batch =>
    simp only [step, onresult]
    split <;> exact ⟨h1, h2⟩
  | evOnerror code =>
    simp only [step, onerror]
    split_ifs <;> simp_all
  | evStartLive permission =>
    have hs : step s (.evStartLive permission) = s := by
      simp [step, startListening, h1]
    rw [hs]
    exact ⟨h1, h2⟩
  | evStopLive =>
    simp only [step, stopListening, onend]
    split <;> exact ⟨h1, h2⟩
  | evStartBatch mic =>
    cases mic <;> simp [step, startWhisperRecording] <;> exact ⟨h1, h2⟩
  | evStopBatch o =>
    simp only [step, stopWhisperRecording, recorderOnStop,
      transcribeWithWhisper, transcribeFinish, transcribeBegin]
    split <;> (try split) <;> exact ⟨h1, h2⟩
  | evData size =>
    simp only [step, ondataavailable]
    split <;> exact ⟨h1, h2⟩
  | evSelect b =>
    cases b with
    | aiml => exact ⟨h1, rfl⟩
    | webApi =>
      simp only [step, selectBackendRadio]
      split
      · simp_all
      · exact ⟨h1, h2⟩
  | evEdit value => exact ⟨h1, h2⟩
  | evClear =>
    simp only [step, handleCtrlD, clearTranscript]
    split <;> exact ⟨h1, h2⟩
  | evCopy clipboardOk =>
    simp only [step, ctrlCopy, copyToClipboard]
    split_ifs <;> exact ⟨h1, h2⟩
  | evCtrlD =>
    simp only [step, handleCtrlD, clearTranscript]
    split <;> exact ⟨h1, h2⟩
  | evSpace permission mic o =>
    simp only [step, spaceHandler]
    split
    · exact ⟨h1, h2⟩
    · rw [h2]
      simp only
      split
      · simp only [stopWhisperRecording, recorderOnStop,
          transcribeWithWhisper, transcribeFinish, transcribeBegin]
        split <;> (try split) <;> exact ⟨h1, h2⟩
      · cases mic <;> simp [startWhisperRecording] <;> exact ⟨h1, h2⟩
  | evAutoCopy clipboardOk =>
    simp only [step, autoCopyEffect, copyToClipboard]
    split_ifs <;> exact ⟨h1, h2⟩
  | evSetAutoCopy b => exact ⟨h1, h2⟩
  | evSetLanguage lang => exact ⟨h1, h2⟩
  | evTick =>
    simp only [step]
    split <;> exact ⟨h1, h2⟩

theorem trace_keeps_fallback : ∀ (es : List Event) (s : AppState),
    s.isSupported = false → s.transcriptionMethod = .aiml →
    (es.foldl step s).isSupported = false ∧
      (es.foldl step s).transcriptionMethod = .aiml := by
  intro es
  induction es with
  | nil => intro s h1 h2; exact ⟨h1, h2⟩
  | cons e es ih =>
    intro s h1 h2
    have h := step_keeps_fallback s e h1 h2
    simpa [List.foldl] using ih (step s e) h.1 h.2

/-! ## Claim theorems -/

/-- C1 (counterexample): the claim's own scenario fails on the code.  The
first batch's final segment is `"hello "`; `recognition.onresult` appends
`finalTranscript + " "`, so the transcript becomes `"hello  "` (two
trailing spaces), not the claimed `"hello "`.  Moreover the claimed
per-segment trailing space is wrong: a batch with two final segments
`"a"`, `"b"` yields `"ab "` (one space for the whole batch), not
`"a b "`. -/
theorem c1_counterexample :
    (onresult (onresult initState [⟨true, "hello "⟩])
        [⟨false, "world"⟩]).transcript = "hello  "
    ∧ (onresult (onresult initState [⟨true, "hello "⟩])
        [⟨false, "world"⟩]).transcript ≠ "hello "
    ∧ (onresult (onresult initState [⟨true, "hello "⟩])
        [⟨false, "world"⟩]).interimTranscript = "world"
    ∧ (onresult initState [⟨true, "a"⟩, ⟨true, "b"⟩]).transcript = "ab "
    ∧ (onresult initState [⟨true, "a"⟩, ⟨true, "b"⟩]).transcript ≠ "a b " := by
  decide

/-- C1 (amended): for every Live result batch, the concatenation of the
batch's finalized segments — when non-empty — is appended to `transcript`
followed by one single trailing space for the whole batch (nothing is
appended when the batch's final text is empty), and the concatenation of
the batch's interim segments fully replaces `interimText`; in particular,
after the batches `{final: "hello ", interim: ""}` then
`{final: "", interim: "world"}` from an empty transcript, `transcript`
equals `"hello  "` (the segment's own trailing space plus the appended
batch space) and `interimText` equals `"world"`. -/
theorem c1_live_batch_amended : ∀ (s : AppState) (batch : List SRResult),
    onresult s batch = liveResultSpec s batch
    ∧ (onresult (onresult initState [⟨true, "hello "⟩])
        [⟨false, "world"⟩]).transcript = "hello  "
    ∧ (onresult (onresult initState [⟨true, "hello "⟩])
        [⟨false, "world"⟩]).interimTranscript = "world" := by
  intro s batch
  refine ⟨?_, by decide, by decide⟩
  simp only [onresult, liveResultSpec, collectLoop_fst, collectLoop_snd,
    String.empty_append]
  by_cases h : finalsConcat batch = "" <;> simp [h]

/-- C2 (counterexample): a direct user edit of the transcript textarea
persists the interim text into `transcript`.  The textarea displays
`transcript + interimTranscript` (page.tsx line 591) and its `onChange`
stores the edited displayed value back into `transcript` (line 592).
Starting from the reachable state with `transcript = "hello "` and
`interimTranscript = "world"`, an edit that appends `"!"` to the
displayed text makes `transcript = "hello world!"` — the interim string
`"world"` is now part of the persisted transcript even though it was
never a finalized segment or batch-transcription result. -/
theorem c2_counterexample :
    (onresult (onresult initState [⟨true, "hello"⟩])
        [⟨false, "world"⟩]).transcript = "hello "
    ∧ (onresult (onresult initState [⟨true, "hello"⟩])
        [⟨false, "world"⟩]).interimTranscript = "world"
    ∧ (textareaChange
        (onresult (onresult initState [⟨true, "hello"⟩]) [⟨false, "world"⟩])
        (displayedText
          (onresult (onresult initState [⟨true, "hello"⟩]) [⟨false, "world"⟩])
          ++ "!")).transcript = "hello world!"
    ∧ (textareaChange
        (onresult (onresult initState [⟨true, "hello"⟩]) [⟨false, "world"⟩])
        (displayedText
          (onresult (onresult initState [⟨true, "hello"⟩]) [⟨false, "world"⟩])
          ++ "!")).transcript
        = (onresult (onresult initState [⟨true, "hello"⟩])
            [⟨false, "world"⟩]).transcript
          ++ (onresult (onresult initState [⟨true, "hello"⟩])
            [⟨false, "world"⟩]).interimTranscript ++ "!" := by
  decide

/-- C2 (amended): for live result delivery, the recognizer's end event,
stopping, clearing, live errors, batch transcription completion and the
auto-copy effect, the interim text is never incorporated into the
persisted transcript — the resulting `transcript` does not depend on
`interimTranscript` at all.  A direct user edit of the transcript area is
the exception: its `onChange` persists the edited displayed value
(`transcript + interimTranscript` plus the edit) into `transcript`, so an
edit while `interimText` is non-empty does persist the interim preview. -/
theorem c2_interim_isolation_amended :
    ∀ (s : AppState) (x : String) (batch : List SRResult) (code : String)
      (o : FetchOutcome) (ok : Bool),
    (onresult { s with interimTranscript := x } batch).transcript
        = (onresult s batch).transcript
    ∧ (onend { s with interimTranscript := x }).transcript
        = (onend s).transcript
    ∧ (stopListening { s with interimTranscript := x }).transcript
        = (stopListening s).transcript
    ∧ (clearTranscript { s with interimTranscript := x }).transcript
        = (clearTranscript s).transcript
    ∧ (onerror { s with interimTranscript := x } code).transcript
        = (onerror s code).transcript
    ∧ (transcribeWithWhisper { s with interimTranscript := x } o).transcript
        = (transcribeWithWhisper s o).transcript
    ∧ (autoCopyEffect { s with interimTranscript := x } ok).transcript
        = (autoCopyEffect s ok).transcript
    ∧ (textareaChange s (displayedText s ++ "!")).transcript
        = s.transcript ++ s.interimTranscript ++ "!" := by
  intro s x batch code o ok
  refine ⟨?_, rfl, ?_, rfl, ?_, ?_, ?_, ?_⟩
  · simp only [onresult]
    split <;> rfl
  · simp only [stopListening, onend]
    split <;> rfl
  · simp only [onerror]
    split_ifs <;> rfl
  · simp only [transcribeWithWhisper, transcribeBegin, transcribeFinish]
    split <;> rfl
  · simp only [autoCopyEffect, copyToClipboard]
    split_ifs <;> rfl
  · simp [textareaChange, displayedText, String.append_assoc]

/-- C3 (counterexample): switching the backend during Capturing is not a
no-op.  From the initial state, pressing Space starts a Live capture
(`status = Capturing`); clicking the OpenAI radio then immediately
changes `transcriptionMethod` to `'aiml'` — the radio inputs (page.tsx
lines 460-488) carry no status guard. -/
theorem c3_counterexample :
    statusOf (step initState (.evSpace true (.ok ()) (.ok "")))
        = .Capturing
    ∧ (step initState
        (.evSpace true (.ok ()) (.ok ""))).transcriptionMethod = .webApi
    ∧ (selectBackendRadio (step initState (.evSpace true (.ok ()) (.ok "")))
        .aiml).transcriptionMethod = .aiml
    ∧ selectBackendRadio (step initState (.evSpace true (.ok ()) (.ok "")))
        .aiml ≠ step initState (.evSpace true (.ok ()) (.ok "")) := by
  decide

/-- C3 (amended): changing the active backend via the radio inputs is
permitted in every session status — a switch attempted while Capturing or
Processing takes effect immediately rather than being ignored.  The only
refusal is the disabled Live radio when Web Speech is unsupported. -/
theorem c3_backend_switch_amended : ∀ s : AppState,
    (statusOf s = .Capturing ∨ statusOf s = .Processing →
      (selectBackendRadio s .aiml).transcriptionMethod = .aiml)
    ∧ (s.isSupported = true →
      (selectBackendRadio s .webApi).transcriptionMethod = .webApi)
    ∧ (s.isSupported = false → selectBackendRadio s .webApi = s) := by
  intro s
  refine ⟨fun _ => rfl, fun h => ?_, fun h => ?_⟩
  · simp [selectBackendRadio, h]
  · simp [selectBackendRadio, h]

/-- C3 (witness for the amended theorem): instantiated at a reachable
Capturing state and at supported/unsupported idle states. -/
theorem c3_backend_switch_amended_witness :
    (selectBackendRadio (step initState (.evSpace true (.ok ()) (.ok "")))
        .aiml).transcriptionMethod = .aiml
    ∧ (selectBackendRadio initState .webApi).transcriptionMethod = .webApi
    ∧ selectBackendRadio { initState with isSupported := false } .webApi
        = { initState with isSupported := false } :=
  ⟨(c3_backend_switch_amended
      (step initState (.evSpace true (.ok ()) (.ok "")))).1
      (Or.inl (by decide)),
   (c3_backend_switch_amended initState).2.1 rfl,
   (c3_backend_switch_amended { initState with isSupported := false }).2.2
      rfl⟩

/-- C4 (counterexample): a second capture resource can be opened while the
session is not Idle.  Reachable trace: select the Batch backend, press
Space (microphone stream acquired, `status = Capturing`), switch the
radio back to Live mid-recording (possible per the C3 counterexample),
press Space again — `startListening`'s only guard is
`!recognitionRef.current || !isSupported` (page.tsx line 294), so the
recognizer starts while the recorder's stream is still open: two capture
handles, and the start was neither a no-op nor an error. -/
theorem c4_counterexample :
    statusOf (step (step initState (.evSelect .aiml))
        (.evSpace true (.ok ()) (.ok ""))) = .Capturing
    ∧ statusOf (step (step (step initState (.evSelect .aiml))
        (.evSpace true (.ok ()) (.ok ""))) (.evSelect .webApi)) = .Capturing
    ∧ openHandles (step (step (step initState (.evSelect .aiml))
        (.evSpace true (.ok ()) (.ok ""))) (.evSelect .webApi)) = 1
    ∧ openHandles (step (step (step (step initState (.evSelect .aiml))
        (.evSpace true (.ok ()) (.ok ""))) (.evSelect .webApi))
        (.evSpace true (.ok ()) (.ok ""))) = 2
    ∧ (step (step (step (step initState (.evSelect .aiml))
        (.evSpace true (.ok ()) (.ok ""))) (.evSelect .webApi))
        (.evSpace true (.ok ()) (.ok ""))).error = ""
    ∧ (step (step (step (step initState (.evSelect .aiml))
        (.evSpace true (.ok ()) (.ok ""))) (.evSelect .webApi))
        (.evSpace true (.ok ()) (.ok ""))).streamOpen = true
    ∧ (step (step (step (step initState (.evSelect .aiml))
        (.evSpace true (.ok ()) (.ok ""))) (.evSelect .webApi))
        (.evSpace true (.ok ()) (.ok ""))).recognizerActive = true := by
  decide

/-- C4 (amended): the start guards are per-backend only.  The toggle is a
no-op while Processing (`isTranscribing`), and while the *active*
backend is itself capturing the toggle stops that capture instead of
starting one — the number of open capture handles does not increase.
However, a start of one backend while the *other* backend is capturing
(reachable by switching the radio mid-capture) is not rejected and opens
a second capture handle. -/
theorem c4_start_guard_amended :
    ∀ (s : AppState) (p : Bool) (mic : Except String Unit)
      (o : FetchOutcome),
    (s.isTranscribing = true → spaceHandler s p mic o = s)
    ∧ (s.transcriptionMethod = .webApi → s.isListening = true →
        openHandles (spaceHandler s p mic o) ≤ openHandles s)
    ∧ (s.transcriptionMethod = .aiml → s.isRecording = true →
        openHandles (spaceHandler s p mic o) ≤ openHandles s) := by
  intro s p mic o
  refine ⟨fun h => by simp [spaceHandler, h], fun hm hl => ?_, fun hm hr => ?_⟩
  · by_cases ht : s.isTranscribing
    · simp [spaceHandler, ht]
    · simp only [spaceHandler, ht, if_false, hm, hl, if_true]
      by_cases hra : s.recognizerActive <;>
        by_cases hso : s.streamOpen <;>
        simp [stopListening, onend, openHandles, hra, hso]
  · by_cases ht : s.isTranscribing
    · simp [spaceHandler, ht]
    · simp only [spaceHandler, ht, if_false, hm, hr, if_true]
      by_cases hrs : s.recorderState = .recording <;>
        rcases hfo : fetchResult o with t | m <;>
        by_cases hra : s.recognizerActive <;>
        by_cases hso : s.streamOpen <;>
        simp [stopWhisperRecording, recorderOnStop, transcribeWithWhisper,
          transcribeFinish, transcribeBegin, openHandles, hrs, hfo, hra, hso]

/-- C4 (witness for the amended theorem): instantiated at a Processing
state, at a reachable Live-capturing state and at a reachable
Batch-capturing state. -/
theorem c4_start_guard_amended_witness :
    spaceHandler { initState with isTranscribing := true } true (.ok ())
        (.ok "") = { initState with isTranscribing := true }
    ∧ openHandles (spaceHandler
        (step initState (.evSpace true (.ok ()) (.ok ""))) true (.ok ())
        (.ok ""))
      ≤ openHandles (step initState (.evSpace true (.ok ()) (.ok "")))
    ∧ openHandles (spaceHandler
        (step (step initState (.evSelect .aiml))
          (.evSpace true (.ok ()) (.ok ""))) true (.ok ()) (.ok ""))
      ≤ openHandles (step (step initState (.evSelect .aiml))
          (.evSpace true (.ok ()) (.ok ""))) :=
  ⟨(c4_start_guard_amended { initState with isTranscribing := true } true
      (.ok ()) (.ok "")).1 rfl,
   (c4_start_guard_amended (step initState (.evSpace true (.ok ()) (.ok "")))
      true (.ok ()) (.ok "")).2.1 (by decide) (by decide),
   (c4_start_guard_amended
      (step (step initState (.evSelect .aiml))
        (.evSpace true (.ok ()) (.ok ""))) true (.ok ()) (.ok "")).2.2
      (by decide) (by decide)⟩

/-- C5 (confirmed): `recognition.onerror` classifies the error code as
claimed — `not-allowed` sets the permission-denied message and changes
neither backend nor support flag, `no-speech` sets the advisory message
with no backend change, `network`/`service-not-allowed` set a message,
mark Web Speech unsupported and force the Batch backend, which then
remains the active backend across *every* subsequent sequence of session
events (the Live radio is disabled once unsupported and nothing ever
resets the support flag), and any other code sets the generic advisory
message with no backend change. -/
theorem c5_onerror_classification :
    ∀ (s : AppState) (code : String) (es : List Event),
    (code = "network" ∨ code = "service-not-allowed" →
        (onerror s code).isSupported = false
      ∧ (onerror s code).transcriptionMethod = .aiml
      ∧ (onerror s code).error ≠ ""
      ∧ (es.foldl step (onerror s code)).transcriptionMethod = .aiml
      ∧ (es.foldl step (onerror s code)).isSupported = false)
    ∧ (code = "not-allowed" →
        (onerror s code).error
          = "Microphone access denied. Please allow microphone access and try again."
      ∧ (onerror s code).transcriptionMethod = s.transcriptionMethod
      ∧ (onerror s code).isSupported = s.isSupported)
    ∧ (code = "no-speech" →
        (onerror s code).error
          = "No speech detected. Please try speaking again."
      ∧ (onerror s code).transcriptionMethod = s.transcriptionMethod
      ∧ (onerror s code).isSupported = s.isSupported)
    ∧ (code ≠ "not-allowed" → code ≠ "no-speech" → code ≠ "network" →
        code ≠ "service-not-allowed" →
        (onerror s code).error
          = "Speech recognition error: " ++ code
            ++ ". Try using OpenAI transcription instead."
      ∧ (onerror s code).transcriptionMethod = s.transcriptionMethod
      ∧ (onerror s code).isSupported = s.isSupported) := by
  intro s code es
  refine ⟨fun h => ?_, fun h => ?_, fun h => ?_, fun h1 h2 h3 h4 => ?_⟩
  · have hC : (onerror s code).isSupported = false
        ∧ (onerror s code).transcriptionMethod = .aiml
        ∧ (onerror s code).error ≠ "" := by
      rcases h with h | h <;> subst h <;>
        refine ⟨rfl, rfl, fun hc => ?_⟩ <;> simp [onerror] at hc
    have hT := trace_keeps_fallback es (onerror s code) hC.1 hC.2.1
    exact ⟨hC.1, hC.2.1, hC.2.2, hT.2, hT.1⟩
  · subst h; exact ⟨rfl, rfl, rfl⟩
  · subst h; exact ⟨rfl, rfl, rfl⟩
  · simp [onerror, h1, h2, h3, h4]

/-- C5 (witness): the classification applied at the initial state with
each class of error code; the `network` case is followed by a concrete
event trace that tries to re-select Live and still ends on the Batch
backend. -/
theorem c5_onerror_classification_witness :
    ((onerror initState "network").isSupported = false
      ∧ (onerror initState "network").transcriptionMethod = .aiml
      ∧ (onerror initState "network").error ≠ ""
      ∧ (([Event.evSelect .webApi, Event.evSpace true (.ok ()) (.ok "hi"),
          Event.evSelect .webApi].foldl step
            (onerror initState "network")).transcriptionMethod = .aiml)
      ∧ (([Event.evSelect .webApi, Event.evSpace true (.ok ()) (.ok "hi"),
          Event.evSelect .webApi].foldl step
            (onerror initState "network")).isSupported = false))
    ∧ ((onerror initState "not-allowed").error
        = "Microphone access denied. Please allow microphone access and try again."
      ∧ (onerror initState "not-allowed").transcriptionMethod
        = initState.transcriptionMethod
      ∧ (onerror initState "not-allowed").isSupported = initState.isSupported)
    ∧ ((onerror initState "no-speech").error
        = "No speech detected. Please try speaking again."
      ∧ (onerror initState "no-speech").transcriptionMethod
        = initState.transcriptionMethod
      ∧ (onerror initState "no-speech").isSupported = initState.isSupported)
    ∧ ((onerror initState "audio-capture").error
        = "Speech recognition error: audio-capture. Try using OpenAI transcription instead."
      ∧ (onerror initState "audio-capture").transcriptionMethod
        = initState.transcriptionMethod
      ∧ (onerror initState "audio-capture").isSupported
        = initState.isSupported) :=
  ⟨(c5_onerror_classification initState "network"
      [Event.evSelect .webApi, Event.evSpace true (.ok ()) (.ok "hi"),
        Event.evSelect .webApi]).1 (Or.inl rfl),
   (c5_onerror_classification initState "not-allowed" []).2.1 rfl,
   (c5_onerror_classification initState "no-speech" []).2.2.1 rfl,
   (c5_onerror_classification initState "audio-capture" []).2.2.2
      (by decide) (by decide) (by decide) (by decide)⟩

/-- C6 (confirmed): `mediaRecorder.onstop` awaits
`transcribeWithWhisper` — which handles every fetch outcome internally
and never rejects — and then unconditionally stops the stream's tracks
and clears `streamRef`.  Hence for every outcome of the transcription
call (success, HTTP error, thrown error) the microphone stream is
released and the track-stop runs exactly once per stop; the same holds
for the full `stopWhisperRecording` path whenever the recorder is
actually recording. -/
theorem c6_stream_release : ∀ (s : AppState) (o : FetchOutcome),
    (recorderOnStop s o).streamOpen = false
    ∧ (recorderOnStop s o).trackStopCount = s.trackStopCount + 1
    ∧ (s.recorderState = .recording →
        (stopWhisperRecording s o).streamOpen = false
      ∧ (stopWhisperRecording s o).trackStopCount = s.trackStopCount + 1) := by
  intro s o
  have hts : ∀ s' : AppState,
      (transcribeWithWhisper s' o).trackStopCount = s'.trackStopCount := by
    intro s'
    simp only [transcribeWithWhisper, transcribeBegin, transcribeFinish]
    split <;> rfl
  refine ⟨rfl, ?_, fun h => ⟨?_, ?_⟩⟩
  · simp [recorderOnStop, hts]
  · simp [stopWhisperRecording, h, recorderOnStop]
  · simp [stopWhisperRecording, h, recorderOnStop, hts]

/-- C6 (witness): a concrete recording state stopped under each of the
three transcription outcomes. -/
theorem c6_stream_release_witness :
    (stopWhisperRecording (step initState (.evStartBatch (.ok ())))
        (.ok "hi")).streamOpen = false
    ∧ (stopWhisperRecording (step initState (.evStartBatch (.ok ())))
        (.ok "hi")).trackStopCount
      = (step initState (.evStartBatch (.ok ()))).trackStopCount + 1
    ∧ (stopWhisperRecording (step initState (.evStartBatch (.ok ())))
        (.httpError "boom")).streamOpen = false
    ∧ (stopWhisperRecording (step initState (.evStartBatch (.ok ())))
        (.thrown "net down")).streamOpen = false :=
  ⟨((c6_stream_release (step initState (.evStartBatch (.ok ())))
      (.ok "hi")).2.2 (by decide)).1,
   ((c6_stream_release (step initState (.evStartBatch (.ok ())))
      (.ok "hi")).2.2 (by decide)).2,
   ((c6_stream_release (step initState (.evStartBatch (.ok ())))
      (.httpError "boom")).2.2 (by decide)).1,
   ((c6_stream_release (step initState (.evStartBatch (.ok ())))
      (.thrown "net down")).2.2 (by decide)).1⟩

/-- C7 (confirmed): during the transcription call `isTranscribing` holds
(`status = Processing` once the recorder flags are down); on resolution
the returned text is appended to `transcript` preceded by a blank line
(`"\n\n"`) exactly when the transcript was already non-empty — an empty
transcript receives exactly the returned text — and the error is
cleared; on rejection the error message is set and `transcript` is
untouched; in both outcomes `isTranscribing` returns to false (status
Idle) and the capture-completion flag `justStoppedRecording` is set, so
the debounced auto-copy effect fires; when auto-copy is enabled and the
resulting transcript is non-blank, that effect then writes the
transcript to the clipboard. -/
theorem c7_batch_completion : ∀ (s : AppState) (o : FetchOutcome),
    (s.isListening = false → s.isRecording = false →
        statusOf (transcribeBegin s) = .Processing)
    ∧ (∀ t, fetchResult o = .ok t →
        (s.transcript = "" → (transcribeWithWhisper s o).transcript = t)
      ∧ (s.transcript ≠ "" →
          (transcribeWithWhisper s o).transcript
            = s.transcript ++ "\n\n" ++ t)
      ∧ (transcribeWithWhisper s o).error = "")
    ∧ (∀ m, fetchResult o = .error m →
        (transcribeWithWhisper s o).transcript = s.transcript
      ∧ (transcribeWithWhisper s o).error = "Transcription error: " ++ m)
    ∧ (transcribeWithWhisper s o).isTranscribing = false
    ∧ (transcribeWithWhisper s o).justStoppedRecording = true
    ∧ (s.isListening = false → s.isRecording = false →
        statusOf (transcribeWithWhisper s o) = .Idle)
    ∧ (s.autoCopyEnabled = true →
        jsTrim (transcribeWithWhisper s o).transcript ≠ "" →
        (autoCopyEffect (transcribeWithWhisper s o) true).copyCount
          = (transcribeWithWhisper s o).copyCount + 1
      ∧ (autoCopyEffect (transcribeWithWhisper s o) true).clipboard
          = (transcribeWithWhisper s o).transcript) := by
  intro s o
  refine ⟨fun h1 h2 => by simp [statusOf, transcribeBegin, h1, h2],
    fun t ht => ?_, fun m hm => ?_, ?_, ?_, fun h1 h2 => ?_, fun he htr => ?_⟩
  · refine ⟨fun he => ?_, fun he => ?_, ?_⟩
    · simp [transcribeWithWhisper, transcribeBegin, transcribeFinish, ht, he]
    · simp [transcribeWithWhisper, transcribeBegin, transcribeFinish, ht, he]
    · simp [transcribeWithWhisper, transcribeBegin, transcribeFinish, ht]
  · constructor <;>
      simp [transcribeWithWhisper, transcribeBegin, transcribeFinish, hm]
  · rfl
  · rfl
  · have hl : (transcribeWithWhisper s o).isListening = false := by
      simp only [transcribeWithWhisper, transcribeBegin, transcribeFinish]
      split <;> simpa
    have hr : (transcribeWithWhisper s o).isRecording = false := by
      simp only [transcribeWithWhisper, transcribeBegin, transcribeFinish]
      split <;> simpa
    have hit : (transcribeWithWhisper s o).isTranscribing = false := rfl
    simp [statusOf, hl, hr, hit]
  · have hf : (transcribeWithWhisper s o).justStoppedRecording = true := rfl
    have hac : (transcribeWithWhisper s o).autoCopyEnabled = true := by
      simp only [transcribeWithWhisper, transcribeBegin, transcribeFinish]
      split <;> simpa
    simp [autoCopyEffect, copyToClipboard, hf, hac, htr]

/-- C7 (witness): the batch completion evaluated at a non-empty
transcript with a successful outcome, at an empty transcript, and at a
thrown outcome; auto-copy enabled in the successful run. -/
theorem c7_batch_completion_witness :
    statusOf (transcribeBegin
        { initState with transcript := "old", autoCopyEnabled := true })
      = .Processing
    ∧ (transcribeWithWhisper
        { initState with transcript := "old", autoCopyEnabled := true }
        (.ok "new")).transcript = "old" ++ "\n\n" ++ "new"
    ∧ (transcribeWithWhisper initState (.ok "new")).transcript = "new"
    ∧ (transcribeWithWhisper
        { initState with transcript := "old", autoCopyEnabled := true }
        (.thrown "net down")).transcript = "old"
    ∧ (transcribeWithWhisper
        { initState with transcript := "old", autoCopyEnabled := true }
        (.thrown "net down")).error = "Transcription error: " ++ "net down"
    ∧ (transcribeWithWhisper
        { initState with transcript := "old", autoCopyEnabled := true }
        (.ok "new")).isTranscribing = false
    ∧ (transcribeWithWhisper
        { initState with transcript := "old", autoCopyEnabled := true }
        (.ok "new")).justStoppedRecording = true
    ∧ statusOf (transcribeWithWhisper
        { initState with transcript := "old", autoCopyEnabled := true }
        (.ok "new")) = .Idle
    ∧ (autoCopyEffect (transcribeWithWhisper
        { initState with transcript := "old", autoCopyEnabled := true }
        (.ok "new")) true).clipboard
      = (transcribeWithWhisper
        { initState with transcript := "old", autoCopyEnabled := true }
        (.ok "new")).transcript :=
  ⟨(c7_batch_completion
      { initState with transcript := "old", autoCopyEnabled := true }
      (.ok "new")).1 rfl rfl,
   ((c7_batch_completion
      { initState with transcript := "old", autoCopyEnabled := true }
      (.ok "new")).2.1 "new" rfl).2.1 (by decide),
   ((c7_batch_completion initState (.ok "new")).2.1 "new" rfl).1 rfl,
   ((c7_batch_completion
      { initState with transcript := "old", autoCopyEnabled := true }
      (.thrown "net down")).2.2.1 "net down" rfl).1,
   ((c7_batch_completion
      { initState with transcript := "old", autoCopyEnabled := true }
      (.thrown "net down")).2.2.1 "net down" rfl).2,
   (c7_batch_completion
      { initState with transcript := "old", autoCopyEnabled := true }
      (.ok "new")).2.2.2.1,
   (c7_batch_completion
      { initState with transcript := "old", autoCopyEnabled := true }
      (.ok "new")).2.2.2.2.1,
   (c7_batch_completion
      { initState with transcript := "old", autoCopyEnabled := true }
      (.ok "new")).2.2.2.2.2.1 rfl rfl,
   ((c7_batch_completion
      { initState with transcript := "old", autoCopyEnabled := true }
      (.ok "new")).2.2.2.2.2.2 rfl (by decide)).2⟩

/-- C8 (confirmed): the auto-copy side effect is debounced by 500ms
(`setTimeout(..., 500)`); it consumes the capture-completion flag, so it
fires at most once per completion (running the effect again after one
run changes nothing, and it does nothing at all when no completion is
pending); the clipboard is written only when `autoCopyEnabled` is true
and `transcript` is non-empty, and what is written is exactly
`transcript`; a clipboard write failure is swallowed — no error message,
no `copySuccess` change, no transcript change. -/
theorem c8_auto_copy : ∀ (s : AppState) (ok ok2 : Bool),
    autoCopyDelayMs = 500
    ∧ (autoCopyEffect s ok).justStoppedRecording = false
    ∧ (s.justStoppedRecording = false → autoCopyEffect s ok = s)
    ∧ autoCopyEffect (autoCopyEffect s ok) ok2 = autoCopyEffect s ok
    ∧ ((autoCopyEffect s ok).copyCount ≠ s.copyCount →
        s.autoCopyEnabled = true ∧ s.transcript ≠ "")
    ∧ (autoCopyEffect s ok).copyCount ≤ s.copyCount + 1
    ∧ ((autoCopyEffect s ok).clipboard ≠ s.clipboard →
        (autoCopyEffect s ok).clipboard = s.transcript)
    ∧ (autoCopyEffect s false).error = s.error
    ∧ (autoCopyEffect s false).copySuccess = s.copySuccess
    ∧ (autoCopyEffect s false).transcript = s.transcript
    ∧ (autoCopyEffect s false).interimTranscript = s.interimTranscript := by
  intro s ok ok2
  have hflag : (autoCopyEffect s ok).justStoppedRecording = false := by
    simp only [autoCopyEffect, copyToClipboard]
    split_ifs with h1 h2 h3 <;> simp_all
  have hnop : ∀ (s' : AppState) (k : Bool),
      s'.justStoppedRecording = false → autoCopyEffect s' k = s' := by
    intro s' k h
    simp [autoCopyEffect, h]
  refine ⟨rfl, hflag, hnop s ok, hnop (autoCopyEffect s ok) ok2 hflag,
    fun h => ?_, ?_, fun h => ?_, ?_, ?_, ?_, ?_⟩
  · by_cases hcond : s.justStoppedRecording = true ∧ s.autoCopyEnabled = true
        ∧ jsTrim s.transcript ≠ ""
    · exact ⟨hcond.2.1, ne_empty_of_jsTrim_ne_empty hcond.2.2⟩
    · exfalso
      apply h
      simp only [autoCopyEffect, copyToClipboard, hcond, if_false]
      split_ifs <;> rfl
  · simp only [autoCopyEffect, copyToClipboard]
    split_ifs <;> simp
  · simp only [autoCopyEffect, copyToClipboard] at h ⊢
    split_ifs at h ⊢ <;> simp_all
  · simp only [autoCopyEffect, copyToClipboard]
    split_ifs <;> simp_all
  · simp only [autoCopyEffect, copyToClipboard]
    split_ifs <;> simp_all
  · simp only [autoCopyEffect, copyToClipboard]
    split_ifs <;> simp_all
  · simp only [autoCopyEffect, copyToClipboard]
    split_ifs <;> simp_all

/-- C8 (witness): the effect run at a completed capture with auto-copy
enabled and a non-blank transcript (clipboard written once), at a state
with no pending completion (no-op), and re-run after itself (no second
copy); a failing clipboard leaves the error state untouched. -/
theorem c8_auto_copy_witness :
    autoCopyDelayMs = 500
    ∧ autoCopyEffect { initState with transcript := "hi" } true
        = { initState with transcript := "hi" }
    ∧ autoCopyEffect
        (autoCopyEffect
          { initState with
              transcript := "hi"
              autoCopyEnabled := true
              justStoppedRecording := true } true) false
      = autoCopyEffect
          { initState with
              transcript := "hi"
              autoCopyEnabled := true
              justStoppedRecording := true } true
    ∧ ((autoCopyEffect
          { initState with
              transcript := "hi"
              autoCopyEnabled := true
              justStoppedRecording := true } true).clipboard ≠ ""
        → (autoCopyEffect
            { initState with
                transcript := "hi"
                autoCopyEnabled := true
                justStoppedRecording := true } true).clipboard = "hi")
    ∧ (autoCopyEffect
        { initState with
            transcript := "hi"
            autoCopyEnabled := true
            justStoppedRecording := true } false).error = "" :=
  ⟨(c8_auto_copy initState true true).1,
   (c8_auto_copy { initState with transcript := "hi" } true true).2.2.1 rfl,
   (c8_auto_copy
      { initState with
          transcript := "hi"
          autoCopyEnabled := true
          justStoppedRecording := true } true false).2.2.2.1,
   fun _ =>
     (c8_auto_copy
        { initState with
            transcript := "hi"
            autoCopyEnabled := true
            justStoppedRecording := true } true true).2.2.2.2.2.2.1
        (by decide),
   (c8_auto_copy
      { initState with
          transcript := "hi"
          autoCopyEnabled := true
          justStoppedRecording := true } false true).2.2.2.2.2.2.2.1⟩

/-- C9 (confirmed): `transcribeWithWhisper` is, for every fetch outcome —
success, non-ok HTTP response, or a thrown network/parse error — a total
state transformation (the `try/catch/finally` of page.tsx lines 415-449
handles every failure path, so no exception reaches the caller); in
every outcome `isTranscribing` ends false, the capture-completion flag
ends set, and the resulting status is never Processing; each caught
failure is converted into the session error message. -/
theorem c9_transcribe_no_throw : ∀ (s : AppState) (o : FetchOutcome),
    (transcribeWithWhisper s o).isTranscribing = false
    ∧ (transcribeWithWhisper s o).justStoppedRecording = true
    ∧ statusOf (transcribeWithWhisper s o) ≠ .Processing
    ∧ (∀ m, fetchResult o = .error m →
        (transcribeWithWhisper s o).error = "Transcription error: " ++ m) := by
  intro s o
  refine ⟨rfl, rfl, ?_, fun m hm => ?_⟩
  · have hit : (transcribeWithWhisper s o).isTranscribing = false := rfl
    simp only [statusOf, hit]
    split_ifs <;> simp_all
  · simp [transcribeWithWhisper, transcribeBegin, transcribeFinish, hm]

/-- C9 (witness): the transcription evaluated with a thrown outcome and
with a non-ok HTTP outcome — both handled, neither leaving Processing. -/
theorem c9_transcribe_no_throw_witness :
    (transcribeWithWhisper initState (.thrown "fetch failed")).isTranscribing
        = false
    ∧ (transcribeWithWhisper initState
        (.thrown "fetch failed")).justStoppedRecording = true
    ∧ statusOf (transcribeWithWhisper initState (.thrown "fetch failed"))
        ≠ .Processing
    ∧ (transcribeWithWhisper initState (.thrown "fetch failed")).error
        = "Transcription error: " ++ "fetch failed"
    ∧ (transcribeWithWhisper initState (.httpError "")).error
        = "Transcription error: " ++ "Error in transcription" :=
  ⟨(c9_transcribe_no_throw initState (.thrown "fetch failed")).1,
   (c9_transcribe_no_throw initState (.thrown "fetch failed")).2.1,
   (c9_transcribe_no_throw initState (.thrown "fetch failed")).2.2.1,
   (c9_transcribe_no_throw initState (.thrown "fetch failed")).2.2.2
      "fetch failed" rfl,
   (c9_transcribe_no_throw initState (.httpError "")).2.2.2
      "Error in transcription" (by simp [fetchResult])⟩

/-- C10 (confirmed): the Ctrl+D shortcut is guarded on a non-empty
`transcript`, so with `transcript = ""` and `interimText` non-empty it
is a no-op and leaves `interimText` unchanged; whenever
`clearTranscript` itself runs, it sets both `transcript` and
`interimText` to the empty string, and the guarded shortcut does exactly
that when `transcript` is non-empty. -/
theorem c10_ctrl_d_guard : ∀ s : AppState,
    (s.transcript = "" → handleCtrlD s = s)
    ∧ (s.transcript = "" →
        (handleCtrlD s).interimTranscript = s.interimTranscript)
    ∧ (clearTranscript s).transcript = ""
    ∧ (clearTranscript s).interimTranscript = ""
    ∧ (s.transcript ≠ "" → handleCtrlD s = clearTranscript s) := by
  intro s
  refine ⟨fun h => by simp [handleCtrlD, h], fun h => by simp [handleCtrlD, h],
    rfl, rfl, fun h => by simp [handleCtrlD, h]⟩

/-- C10 (witness): the shortcut at an empty transcript with a pending
interim preview (no-op, interim untouched) and at a non-empty transcript
(both fields cleared). -/
theorem c10_ctrl_d_guard_witness :
    handleCtrlD { initState with interimTranscript := "world" }
        = { initState with interimTranscript := "world" }
    ∧ (handleCtrlD
        { initState with interimTranscript := "world" }).interimTranscript
      = "world"
    ∧ handleCtrlD
        { initState with
            transcript := "hello "
            interimTranscript := "world" }
      = clearTranscript
          { initState with
              transcript := "hello "
              interimTranscript := "world" } :=
  ⟨(c10_ctrl_d_guard { initState with interimTranscript := "world" }).1 rfl,
   (c10_ctrl_d_guard { initState with interimTranscript := "world" }).2.1 rfl,
   (c10_ctrl_d_guard
      { initState with
          transcript := "hello "
          interimTranscript := "world" }).2.2.2.2 (by decide)⟩

end STT
